import Mathlib

/-!
Verification of the canvas editor's undo/redo history engine and
interaction state machine, shallowly embedded from the TypeScript
source (`src/app/page.tsx`, `src/components/Canvas.tsx`, and the
shared type declarations).  JavaScript numbers are modelled as `ℚ`
(the code performs only field arithmetic, `max`, and remainder on
them), timestamps as `ℕ`, nullable values as `Option`, and the
impure inputs of the handlers (`Date.now()`, `prompt`,
`getBoundingClientRect`, `Math.atan2`) as explicit parameters.
-/

set_option linter.unusedVariables false

/-! ### Data model (element types) -/

/-- `TextElement` from the shared type declarations. -/
structure TextElement where
  id : String
  x : ℚ
  y : ℚ
  width : ℚ
  height : ℚ
  text : String
  fontSize : ℚ
  fontFamily : String
  color : String
  backgroundColor : String
  textAlign : String
  rotation : ℚ
  zIndex : ℚ
  visible : Bool
  name : String
  groupId : Option String
deriving DecidableEq

/-- `LabelElement` from the shared type declarations. -/
structure LabelElement where
  id : String
  x : ℚ
  y : ℚ
  width : ℚ
  height : ℚ
  jsonKey : String
  placeholder : String
  fontSize : ℚ
  minFontSize : ℚ
  fontFamily : String
  color : String
  backgroundColor : String
  textAlign : String
  verticalAlign : String
  autoSizeText : Bool
  rotation : ℚ
  zIndex : ℚ
  visible : Bool
  name : String
  groupId : Option String
deriving DecidableEq

/-- `GroupElement` from the shared type declarations. -/
structure GroupElement where
  id : String
  name : String
  zIndex : ℚ
  visible : Bool
  children : List String
deriving DecidableEq

/-- `SignatureElement` from the shared type declarations. -/
structure SignatureElement where
  id : String
  x : ℚ
  y : ℚ
  width : ℚ
  height : ℚ
  svgData : String
  imageData : String
  originalImageData : Option String
  color : String
  rotation : ℚ
  zIndex : ℚ
  visible : Bool
  name : String
  groupId : Option String
deriving DecidableEq

/-- `MediaElement` from the shared type declarations. -/
structure MediaElement where
  id : String
  x : ℚ
  y : ℚ
  width : ℚ
  height : ℚ
  mediaType : String
  data : String
  originalData : Option String
  fileName : String
  strokeColor : Option String
  fillColor : Option String
  rotation : ℚ
  zIndex : ℚ
  visible : Bool
  name : String
  groupId : Option String
deriving DecidableEq

/-- `CanvasElement`: the tagged union over the five element variants. -/
inductive CanvasElement where
  | text (t : TextElement)
  | label (l : LabelElement)
  | group (g : GroupElement)
  | signature (s : SignatureElement)
  | media (m : MediaElement)
deriving DecidableEq

/-- The `Tool` union. -/
inductive Tool where
  | cursor
  | text
  | label
  | signature
  | media
deriving DecidableEq

/-- The stable identifier of an element (`el.id`). -/
def CanvasElement.id : CanvasElement → String
  | .text t => t.id
  | .label l => l.id
  | .group g => g.id
  | .signature s => s.id
  | .media m => m.id

/-- The narrowing check the handlers perform on every mutation site:
`el.type === 'text' || el.type === 'label' || el.type === 'signature' || el.type === 'media'`. -/
def CanvasElement.isGeometric : CanvasElement → Bool
  | .text _ => true
  | .label _ => true
  | .group _ => false
  | .signature _ => true
  | .media _ => true

/-- `el.type === 'text'`. -/
def CanvasElement.isText : CanvasElement → Bool
  | .text _ => true
  | _ => false

/-- `el.type === 'label'`. -/
def CanvasElement.isLabel : CanvasElement → Bool
  | .label _ => true
  | _ => false

/-- `el.x`.  A `group` carries no geometry in the source; every read of
`el.x` in the handlers is guarded by a variant check, so the `group`
case below is never consulted. -/
def CanvasElement.x : CanvasElement → ℚ
  | .text t => t.x
  | .label l => l.x
  | .group _ => 0
  | .signature s => s.x
  | .media m => m.x

/-- `el.y` (see `CanvasElement.x` about the `group` case). -/
def CanvasElement.y : CanvasElement → ℚ
  | .text t => t.y
  | .label l => l.y
  | .group _ => 0
  | .signature s => s.y
  | .media m => m.y

/-- `el.width` (see `CanvasElement.x` about the `group` case). -/
def CanvasElement.width : CanvasElement → ℚ
  | .text t => t.width
  | .label l => l.width
  | .group _ => 0
  | .signature s => s.width
  | .media m => m.width

/-- `el.height` (see `CanvasElement.x` about the `group` case). -/
def CanvasElement.height : CanvasElement → ℚ
  | .text t => t.height
  | .label l => l.height
  | .group _ => 0
  | .signature s => s.height
  | .media m => m.height

/-- `el.rotation` (see `CanvasElement.x` about the `group` case). -/
def CanvasElement.rotation : CanvasElement → ℚ
  | .text t => t.rotation
  | .label l => l.rotation
  | .group _ => 0
  | .signature s => s.rotation
  | .media m => m.rotation

/-- `el.zIndex` (present on every variant). -/
def CanvasElement.zIndex : CanvasElement → ℚ
  | .text t => t.zIndex
  | .label l => l.zIndex
  | .group g => g.zIndex
  | .signature s => s.zIndex
  | .media m => m.zIndex

/-- The spread update `{ ...el, x: newX, y: newY }` applied by the drag
branch of `handleMouseMove` (only reached on geometric variants). -/
def CanvasElement.setXY : CanvasElement → ℚ → ℚ → CanvasElement
  | .text t, nx, ny => .text { t with x := nx, y := ny }
  | .label l, nx, ny => .label { l with x := nx, y := ny }
  | .group g, _, _ => .group g
  | .signature s, nx, ny => .signature { s with x := nx, y := ny }
  | .media m, nx, ny => .media { m with x := nx, y := ny }

/-- The spread update `{ ...el, x, y, width, height }` applied by the
resize branch of `handleMouseMove`. -/
def CanvasElement.setGeom : CanvasElement → ℚ → ℚ → ℚ → ℚ → CanvasElement
  | .text t, nx, ny, nw, nh => .text { t with x := nx, y := ny, width := nw, height := nh }
  | .label l, nx, ny, nw, nh => .label { l with x := nx, y := ny, width := nw, height := nh }
  | .group g, _, _, _, _ => .group g
  | .signature s, nx, ny, nw, nh => .signature { s with x := nx, y := ny, width := nw, height := nh }
  | .media m, nx, ny, nw, nh => .media { m with x := nx, y := ny, width := nw, height := nh }

/-- The spread update `{ ...el, rotation: newRotation }` applied by the
rotate branch of `handleMouseMove`. -/
def CanvasElement.setRotation : CanvasElement → ℚ → CanvasElement
  | .text t, r => .text { t with rotation := r }
  | .label l, r => .label { l with rotation := r }
  | .group g, _ => .group g
  | .signature s, r => .signature { s with rotation := r }
  | .media m, r => .media { m with rotation := r }

/-! ### History data model -/

/-- `CanvasSettings` from the shared type declarations
(`backgroundImage` is optional there). -/
structure CanvasSettings where
  meshColor : String
  backgroundColor : String
  canvasRatio : String
  showGrid : Bool
  backgroundImage : Option String
  backgroundImageOpacity : ℚ
  backgroundImageBrightness : ℚ
  backgroundImageContrast : ℚ
  backgroundImageBlur : ℚ
  backgroundImageOverlay : String
  backgroundImageOverlayOpacity : ℚ
deriving DecidableEq

/-- `HistoryState`: one immutable snapshot. -/
structure HistoryState where
  elements : List CanvasElement
  canvasSettings : CanvasSettings
  timestamp : ℕ
  operation : String
deriving DecidableEq

/-- `HistoryStack`: past (oldest first), present, future (nearest first). -/
structure HistoryStack where
  past : List HistoryState
  present : HistoryState
  future : List HistoryState
deriving DecidableEq

/-- `MAX_HISTORY_SIZE` in `page.tsx`. -/
def MAX_HISTORY_SIZE : ℕ := 100

/-- The `setHistory` updater inside `saveToHistory` (`page.tsx`):
append the current present to `past`, shift the oldest entry off when
the length exceeds `MAX_HISTORY_SIZE`, install the new state as
`present` and clear `future`. -/
def histCommit (h : HistoryStack) (newState : HistoryState) : HistoryStack :=
  let newPast := h.past ++ [h.present]
  let newPast := if MAX_HISTORY_SIZE < newPast.length then newPast.tail else newPast
  { past := newPast, present := newState, future := [] }

/-- The stack transition performed by `undo()` (`page.tsx`): no-op when
`past` is empty, otherwise pop the last `past` entry into `present` and
push the old present onto the front of `future`. -/
def histUndo (h : HistoryStack) : HistoryStack :=
  match h.past.getLast? with
  | none => h
  | some previous =>
    { past := h.past.dropLast
      present := previous
      future := h.present :: h.future }

/-- The stack transition performed by `redo()` (`page.tsx`): no-op when
`future` is empty, otherwise pop the front of `future` into `present`
and append the old present to `past`. -/
def histRedo (h : HistoryStack) : HistoryStack :=
  match h.future with
  | [] => h
  | next :: newFuture =>
    { past := h.past ++ [h.present]
      present := next
      future := newFuture }

/-- `n` consecutive commits, given the sequence of new snapshots. -/
def commitN (σs : List HistoryState) (h : HistoryStack) : HistoryStack :=
  σs.foldl histCommit h

/-- `n` consecutive undos. -/
def undoN : ℕ → HistoryStack → HistoryStack
  | 0, h => h
  | n + 1, h => undoN n (histUndo h)

/-- A history-engine operation: used to quantify over arbitrary
sequences of commit / undo / redo calls. -/
inductive HistOp where
  | commit (σ : HistoryState)
  | undo
  | redo

/-- Apply one history operation. -/
def applyHistOp (h : HistoryStack) : HistOp → HistoryStack
  | .commit σ => histCommit h σ
  | .undo => histUndo h
  | .redo => histRedo h

/-- Apply a sequence of history operations, oldest first. -/
def applyHistOps (ops : List HistOp) (h : HistoryStack) : HistoryStack :=
  ops.foldl applyHistOp h

/-! ### Page-level state (`page.tsx`) -/

/-- The page component's live state: elements, selection, the eleven
canvas-settings fields, the active tool and the history stack.
`commitLog` is instrumentation: `saveToHistory` (the single point where
snapshots are pushed) appends one entry per call, so the log observes
exactly the sequence of history commits. -/
structure AppState where
  elements : List CanvasElement
  selectedElementIds : List String
  meshColor : String
  backgroundColor : String
  canvasRatio : String
  showGrid : Bool
  backgroundImage : Option String
  backgroundImageOpacity : ℚ
  backgroundImageBrightness : ℚ
  backgroundImageContrast : ℚ
  backgroundImageBlur : ℚ
  backgroundImageOverlay : String
  backgroundImageOverlayOpacity : ℚ
  activeTool : Tool
  history : HistoryStack
  commitLog : List (String × List CanvasElement)
deriving DecidableEq

/-- `currentCanvasSettings` as assembled at the top of `saveToHistory`. -/
def currentCanvasSettings (s : AppState) : CanvasSettings :=
  { meshColor := s.meshColor
    backgroundColor := s.backgroundColor
    canvasRatio := s.canvasRatio
    showGrid := s.showGrid
    backgroundImage := s.backgroundImage
    backgroundImageOpacity := s.backgroundImageOpacity
    backgroundImageBrightness := s.backgroundImageBrightness
    backgroundImageContrast := s.backgroundImageContrast
    backgroundImageBlur := s.backgroundImageBlur
    backgroundImageOverlay := s.backgroundImageOverlay
    backgroundImageOverlayOpacity := s.backgroundImageOverlayOpacity }

/-- `saveToHistory(operation, newElements?, newCanvasSettings?)` from
`page.tsx`: build the new snapshot from the live values (falling back
to the live elements / settings when no override is passed; `Date.now()`
is the `now` parameter) and push it with `histCommit`. -/
def saveToHistory (s : AppState) (now : ℕ) (operation : String)
    (newElements : Option (List CanvasElement))
    (newCanvasSettings : Option CanvasSettings) : AppState :=
  let newState : HistoryState :=
    { elements := newElements.getD s.elements
      canvasSettings := newCanvasSettings.getD (currentCanvasSettings s)
      timestamp := now
      operation := operation }
  { s with
    history := histCommit s.history newState
    commitLog := s.commitLog ++ [(operation, newState.elements)] }

/-- `undo()` from `page.tsx`: restore the popped snapshot's elements and
all eleven canvas-settings fields to live state; the selection is
deliberately left untouched. -/
def undo (s : AppState) : AppState :=
  match s.history.past.getLast? with
  | none => s
  | some previous =>
    { s with
      elements := previous.elements
      meshColor := previous.canvasSettings.meshColor
      backgroundColor := previous.canvasSettings.backgroundColor
      canvasRatio := previous.canvasSettings.canvasRatio
      showGrid := previous.canvasSettings.showGrid
      backgroundImage := previous.canvasSettings.backgroundImage
      backgroundImageOpacity := previous.canvasSettings.backgroundImageOpacity
      backgroundImageBrightness := previous.canvasSettings.backgroundImageBrightness
      backgroundImageContrast := previous.canvasSettings.backgroundImageContrast
      backgroundImageBlur := previous.canvasSettings.backgroundImageBlur
      backgroundImageOverlay := previous.canvasSettings.backgroundImageOverlay
      backgroundImageOverlayOpacity := previous.canvasSettings.backgroundImageOverlayOpacity
      history :=
        { past := s.history.past.dropLast
          present := previous
          future := s.history.present :: s.history.future } }

/-- `redo()` from `page.tsx`: symmetric to `undo`, consuming the front
of `future`; the selection is deliberately left untouched. -/
def redo (s : AppState) : AppState :=
  match s.history.future with
  | [] => s
  | next :: newFuture =>
    { s with
      elements := next.elements
      meshColor := next.canvasSettings.meshColor
      backgroundColor := next.canvasSettings.backgroundColor
      canvasRatio := next.canvasSettings.canvasRatio
      showGrid := next.canvasSettings.showGrid
      backgroundImage := next.canvasSettings.backgroundImage
      backgroundImageOpacity := next.canvasSettings.backgroundImageOpacity
      backgroundImageBrightness := next.canvasSettings.backgroundImageBrightness
      backgroundImageContrast := next.canvasSettings.backgroundImageContrast
      backgroundImageBlur := next.canvasSettings.backgroundImageBlur
      backgroundImageOverlay := next.canvasSettings.backgroundImageOverlay
      backgroundImageOverlayOpacity := next.canvasSettings.backgroundImageOverlayOpacity
      history :=
        { past := s.history.past ++ [s.history.present]
          present := next
          future := newFuture } }

/-- `updateElements(newElements, operation, newSelectedIds?)` from
`page.tsx`: install the new elements, optionally replace the selection,
then `saveToHistory(operation, newElements)`. -/
def updateElements (s : AppState) (now : ℕ) (newElements : List CanvasElement)
    (operation : String) (newSelectedIds : Option (List String)) : AppState :=
  let s1 := { s with elements := newElements }
  let s2 :=
    match newSelectedIds with
    | some ids => { s1 with selectedElementIds := ids }
    | none => s1
  saveToHistory s2 now operation (some newElements) none

/-- `selectElement(elementId, isShiftClick)` from `page.tsx`. -/
def selectElement (s : AppState) (elementId : String) (isShiftClick : Bool) : AppState :=
  if isShiftClick then
    { s with
      selectedElementIds :=
        if s.selectedElementIds.contains elementId then
          s.selectedElementIds.filter (fun i => i ≠ elementId)
        else
          s.selectedElementIds ++ [elementId] }
  else
    { s with selectedElementIds := [elementId] }

/-- `selectedElements` (`page.tsx` line 127): the stored elements whose
id is currently selected. -/
def selectedElements (s : AppState) : List CanvasElement :=
  s.elements.filter (fun el => s.selectedElementIds.contains el.id)

/-! ### Canvas component model (`Canvas.tsx`) -/

/-- The result of `canvasRef.getBoundingClientRect()` (only the fields
the handlers read). -/
structure Rect where
  left : ℚ
  top : ℚ

/-- The fields of a `React.MouseEvent` the handlers read. -/
structure MouseEvent where
  clientX : ℚ
  clientY : ℚ
  shiftKey : Bool

/-- The impure inputs of one handler invocation: the bounding rect
(`none` models a missing canvas ref), `Date.now()`, the two `prompt`
answers of the label branch (`none` models cancel), and
`Math.atan2(dy, dx) * 180 / π` — abstracted as an arbitrary function
since it is transcendental; every property proved below holds for all
angle values it may return. -/
structure Env where
  rect : Option Rect
  now : ℕ
  promptKey : Option String
  promptPlaceholder : Option String
  atan2deg : ℚ → ℚ → ℚ

/-- `resizeStart` state (`{x, y, width, height}`): the canvas-space
pointer position at gesture start plus the element's start size. -/
structure ResizeStart where
  x : ℚ
  y : ℚ
  width : ℚ
  height : ℚ
deriving DecidableEq

/-- `rotateStart` state (`{x, y, rotation}`). -/
structure RotateStart where
  x : ℚ
  y : ℚ
  rotation : ℚ
deriving DecidableEq

/-- The combined world the three pointer handlers act on: the page
state (props and callbacks resolve to it) plus the Canvas component's
local gesture state and the `isPreviewMode` prop. -/
structure CanvasWorld where
  app : AppState
  scale : ℚ
  isDragging : Bool
  dragStart : ℚ × ℚ
  dragElementId : Option String
  potentialDragElement : Option String
  isResizing : Bool
  resizeHandle : Option String
  resizeStart : ResizeStart
  isRotating : Bool
  rotateStart : RotateStart
  isPreviewMode : Bool
deriving DecidableEq

/-- `calculateRotationAngle(centerX, centerY, mouseX, mouseY)`:
`Math.atan2(mouseY - centerY, mouseX - centerX)` in degrees. -/
def calculateRotationAngle (env : Env) (centerX centerY mouseX mouseY : ℚ) : ℚ :=
  env.atan2deg (mouseY - centerY) (mouseX - centerX)

/-- Truncation toward zero, as performed by the JavaScript `%`
operator's implicit division. -/
def ratTrunc (q : ℚ) : ℤ :=
  if 0 ≤ q then ⌊q⌋ else ⌈q⌉

/-- The JavaScript remainder `a % b` (sign of the dividend). -/
def jsRem (a b : ℚ) : ℚ :=
  a - b * (ratTrunc (a / b) : ℚ)

/-- The normalization in the rotate branch of `handleMouseMove`:
`newRotation = newRotation % 360; if (newRotation < 0) newRotation += 360`. -/
def jsRotationNormalize (r : ℚ) : ℚ :=
  let m := jsRem r 360
  if m < 0 then m + 360 else m

/-- The rotation computed per move in the rotate branch:
`rotateStart.rotation + (currentAngle - startAngle)`, normalized. -/
def rotationFromGesture (startRotation currentAngle startAngle : ℚ) : ℚ :=
  jsRotationNormalize (startRotation + (currentAngle - startAngle))

/-- The `switch (resizeHandle)` of the resize branch of
`handleMouseMove`: given the element's current geometry
`(elX, elY, elW, elH)`, the gesture-start size `(startW, startH)` and
the pointer deltas, return `(newX, newY, newWidth, newHeight)`.  An
unknown handle string leaves the geometry unchanged (no `default`
case in the source switch). -/
def resizeGeometry (handle : String) (elX elY elW elH startW startH deltaX deltaY : ℚ) :
    ℚ × ℚ × ℚ × ℚ :=
  match handle with
  | "nw" =>
    let newWidth := max 20 (startW - deltaX)
    let newHeight := max 20 (startH - deltaY)
    (elX + (elW - newWidth), elY + (elH - newHeight), newWidth, newHeight)
  | "ne" =>
    let newWidth := max 20 (startW + deltaX)
    let newHeight := max 20 (startH - deltaY)
    (elX, elY + (elH - newHeight), newWidth, newHeight)
  | "sw" =>
    let newWidth := max 20 (startW - deltaX)
    let newHeight := max 20 (startH + deltaY)
    (elX + (elW - newWidth), elY, newWidth, newHeight)
  | "se" =>
    let newWidth := max 20 (startW + deltaX)
    let newHeight := max 20 (startH + deltaY)
    (elX, elY, newWidth, newHeight)
  | "n" =>
    let newHeight := max 20 (startH - deltaY)
    (elX, elY + (elH - newHeight), elW, newHeight)
  | "s" =>
    let newHeight := max 20 (startH + deltaY)
    (elX, elY, elW, newHeight)
  | "w" =>
    let newWidth := max 20 (startW - deltaX)
    (elX + (elW - newWidth), elY, newWidth, elH)
  | "e" =>
    let newWidth := max 20 (startW + deltaX)
    (elX, elY, newWidth, elH)
  | _ => (elX, elY, elW, elH)

/-- The hit test of the cursor branch of `handleMouseDown`:
`[...elements].reverse().find(...)` over text and label elements. -/
def findClickedElement (elements : List CanvasElement) (x y : ℚ) : Option CanvasElement :=
  elements.reverse.find? fun el =>
    (el.isText || el.isLabel) &&
    decide (el.x ≤ x) && decide (x ≤ el.x + el.width) &&
    decide (el.y ≤ y) && decide (y ≤ el.y + el.height)

/-- `handleMouseDown` (`Canvas.tsx`).  State reads use the snapshot `w`
(the handler's closure values); writes accumulate on the returned
world, mirroring how queued `setState` calls settle after the event. -/
def handleMouseDown (env : Env) (e : MouseEvent) (w : CanvasWorld) : CanvasWorld :=
  if w.isPreviewMode then w else
  match w.app.activeTool with
  | Tool.text =>
    match env.rect with
    | none => w
    | some rect =>
      let x := (e.clientX - rect.left) / w.scale
      let y := (e.clientY - rect.top) / w.scale
      let newTextElement : CanvasElement := CanvasElement.text
        { id := "text-" ++ toString env.now
          x := x, y := y, width := 100, height := 40
          text := "Text", fontSize := 16, fontFamily := "Arial"
          color := "#000000", backgroundColor := "transparent"
          textAlign := "left", rotation := 0
          zIndex := (w.app.elements.map CanvasElement.zIndex).foldl max 0 + 1
          visible := true
          name := "Text " ++ toString ((w.app.elements.filter CanvasElement.isText).length + 1)
          groupId := none }
      let newElements := w.app.elements ++ [newTextElement]
      let w1 := { w with app := updateElements w.app env.now newElements "add_text" (some [newTextElement.id]) }
      let w2 := { w1 with app := selectElement w1.app newTextElement.id false }
      { w2 with app := { w2.app with activeTool := Tool.cursor } }
  | Tool.label =>
    match env.rect with
    | none => w
    | some rect =>
      let x := (e.clientX - rect.left) / w.scale
      let y := (e.clientY - rect.top) / w.scale
      match env.promptKey with
      | none => w
      | some jsonKey =>
        if jsonKey = "" then w else
        let defaultPlaceholder := "\x7b" ++ jsonKey ++ "\x7d"
        let placeholder :=
          match env.promptPlaceholder with
          | none => defaultPlaceholder
          | some p => if p = "" then defaultPlaceholder else p
        let newLabelElement : CanvasElement := CanvasElement.label
          { id := "label-" ++ toString env.now
            x := x, y := y, width := 120, height := 40
            jsonKey := jsonKey.trim, placeholder := placeholder
            fontSize := 50, minFontSize := 8, fontFamily := "Arial"
            color := "#000000", backgroundColor := "transparent"
            textAlign := "left", verticalAlign := "center"
            autoSizeText := true, rotation := 0
            zIndex := (w.app.elements.map CanvasElement.zIndex).foldl max 0 + 1
            visible := true
            name := "Label " ++ toString ((w.app.elements.filter CanvasElement.isLabel).length + 1)
            groupId := none }
        let newElements := w.app.elements ++ [newLabelElement]
        let w1 := { w with app := updateElements w.app env.now newElements "add_label" (some [newLabelElement.id]) }
        let w2 := { w1 with app := selectElement w1.app newLabelElement.id false }
        { w2 with app := { w2.app with activeTool := Tool.cursor } }
  | Tool.signature =>
    { w with app := { w.app with activeTool := Tool.cursor } }
  | Tool.media => w
  | Tool.cursor =>
    match env.rect with
    | none => w
    | some rect =>
      let x := (e.clientX - rect.left) / w.scale
      let y := (e.clientY - rect.top) / w.scale
      match findClickedElement w.app.elements x y with
      | some clickedElement =>
        if clickedElement.isText || clickedElement.isLabel then
          let w1 := { w with app := selectElement w.app clickedElement.id e.shiftKey }
          if ¬e.shiftKey then
            { w1 with
              potentialDragElement := some clickedElement.id
              dragStart := (x - clickedElement.x, y - clickedElement.y) }
          else w1
        else
          { w with app := selectElement w.app "" false }
      | none =>
        { w with app := selectElement w.app "" false }

/-- `handleMouseMove` (`Canvas.tsx`).  The promotion block and the
drag / resize / rotate branches all read the snapshot `w` (a `setState`
issued by the promotion block is not visible to the same invocation),
while their writes accumulate on the returned world. -/
def handleMouseMove (env : Env) (e : MouseEvent) (w : CanvasWorld) : CanvasWorld :=
  if w.isPreviewMode then w else
  let w1 :=
    if w.potentialDragElement.isSome && !w.isDragging && !w.isResizing && !w.isRotating
        && w.app.activeTool == Tool.cursor then
      { w with
        isDragging := true
        dragElementId := w.potentialDragElement
        potentialDragElement := none }
    else w
  if w.isDragging && w.dragElementId.isSome && w.app.activeTool == Tool.cursor
      && !w.isResizing && !w.isRotating then
    match w.dragElementId, env.rect with
    | some dragId, some rect =>
      let x := (e.clientX - rect.left) / w.scale
      let y := (e.clientY - rect.top) / w.scale
      let newX := x - w.dragStart.1
      let newY := y - w.dragStart.2
      let newElements := w.app.elements.map fun el =>
        if el.id == dragId && el.isGeometric then el.setXY newX newY else el
      { w1 with app := { w1.app with elements := newElements } }
    | _, _ => w1
  else if w.isResizing && w.dragElementId.isSome && w.resizeHandle.isSome then
    match w.dragElementId, w.resizeHandle, env.rect with
    | some dragId, some handle, some rect =>
      let mouseX := (e.clientX - rect.left) / w.scale
      let mouseY := (e.clientY - rect.top) / w.scale
      let deltaX := mouseX - w.resizeStart.x
      let deltaY := mouseY - w.resizeStart.y
      match w.app.elements.find? (fun el => el.id == dragId) with
      | some element =>
        if element.isGeometric then
          let g := resizeGeometry handle element.x element.y element.width element.height
            w.resizeStart.width w.resizeStart.height deltaX deltaY
          let newElements := w.app.elements.map fun el =>
            if el.id == dragId && el.isGeometric then el.setGeom g.1 g.2.1 g.2.2.1 g.2.2.2 else el
          { w1 with app := { w1.app with elements := newElements } }
        else w1
      | none => w1
    | _, _, _ => w1
  else if w.isRotating && w.dragElementId.isSome then
    match w.dragElementId, env.rect with
    | some dragId, some rect =>
      let mouseX := (e.clientX - rect.left) / w.scale
      let mouseY := (e.clientY - rect.top) / w.scale
      match w.app.elements.find? (fun el => el.id == dragId) with
      | some element =>
        if element.isGeometric then
          let centerX := element.x + element.width / 2
          let centerY := element.y + element.height / 2
          let currentAngle := calculateRotationAngle env centerX centerY mouseX mouseY
          let startAngle := calculateRotationAngle env centerX centerY w.rotateStart.x w.rotateStart.y
          let newRotation := rotationFromGesture w.rotateStart.rotation currentAngle startAngle
          let newElements := w.app.elements.map fun el =>
            if el.id == dragId && el.isGeometric then el.setRotation newRotation else el
          { w1 with app := { w1.app with elements := newElements } }
        else w1
      | none => w1
    | _, _ => w1
  else w1

/-- `handleMouseUp` (`Canvas.tsx`): one `updateElements` commit per
active gesture flag (reading the snapshot elements), then reset all
gesture state.  `Date.now()` inside the nested `saveToHistory` is the
`now` parameter. -/
def handleMouseUp (now : ℕ) (w : CanvasWorld) : CanvasWorld :=
  if w.isPreviewMode then w else
  let w1 :=
    if w.isDragging && w.dragElementId.isSome then
      { w with app := updateElements w.app now w.app.elements "move_element" none }
    else w
  let w2 :=
    if w.isResizing && w.dragElementId.isSome then
      { w1 with app := updateElements w1.app now w.app.elements "resize_element" none }
    else w1
  let w3 :=
    if w.isRotating && w.dragElementId.isSome then
      { w2 with app := updateElements w2.app now w.app.elements "rotate_element" none }
    else w2
  { w3 with
    isDragging := false
    dragElementId := none
    potentialDragElement := none
    dragStart := (0, 0)
    isResizing := false
    resizeHandle := none
    resizeStart := { x := 0, y := 0, width := 0, height := 0 }
    isRotating := false
    rotateStart := { x := 0, y := 0, rotation := 0 } }

/-- A sequence of move events under a fixed environment. -/
def applyMoves (env : Env) (moves : List MouseEvent) (w : CanvasWorld) : CanvasWorld :=
  moves.foldl (fun acc e => handleMouseMove env e acc) w

/-- The per-element `onMouseDown` closure attached to signature and
media elements (`Canvas.tsx`; the two closures are identical up to the
element): guard on preview mode, select the element, and — when the
canvas rect is available — enter the dragging state immediately,
with no pending-drag stage.  Its `e.stopPropagation()` keeps the
canvas-level `handleMouseDown` from also running for the same event;
the later mouseup still bubbles to `handleMouseUp`. -/
def handleElementMouseDown (env : Env) (e : MouseEvent) (element : CanvasElement)
    (w : CanvasWorld) : CanvasWorld :=
  if w.isPreviewMode then w else
  let w1 := { w with app := selectElement w.app element.id e.shiftKey }
  match env.rect with
  | none => w1
  | some rect =>
    let x := (e.clientX - rect.left) / w.scale
    let y := (e.clientY - rect.top) / w.scale
    { w1 with
      isDragging := true
      dragElementId := some element.id
      dragStart := (x - element.x, y - element.y) }

/-! ### Spec-side definitions for refinement comparison -/

/-- Modelled from the spec sentence for handle `nw`: `width = max(20,
startWidth - deltaX)`, `height = max(20, startHeight - deltaY)`,
`x = originX + (startWidth - newWidth)`,
`y = originY + (startHeight - newHeight)`.  Used only to compare
against `resizeGeometry`. -/
def specResizeNW (originX originY startW startH deltaX deltaY : ℚ) : ℚ × ℚ × ℚ × ℚ :=
  let newWidth := max 20 (startW - deltaX)
  let newHeight := max 20 (startH - deltaY)
  (originX + (startW - newWidth), originY + (startH - newHeight), newWidth, newHeight)

/-- Modelled from the spec sentence for handle `se`: `width = max(20,
startWidth + deltaX)`, `height = max(20, startHeight + deltaY)` with
x, y unchanged.  Used only to compare against `resizeGeometry`. -/
def specResizeSE (originX originY startW startH deltaX deltaY : ℚ) : ℚ × ℚ × ℚ × ℚ :=
  (originX, originY, max 20 (startW + deltaX), max 20 (startH + deltaY))

/-- Modelled from the spec: `normalize360`, the canonical reduction of
an angle into `[0, 360)`.  Used only to compare against the source's
`% 360; if (< 0) += 360` normalization. -/
def specNormalize360 (r : ℚ) : ℚ :=
  r - 360 * (⌊r / 360⌋ : ℚ)

/-- Modelled from the spec sentence "the edge/corner opposite the
dragged handle stays fixed": the anchor-preservation property of one
resize update, per handle, relating the input geometry
`(elX, elY, elW, elH)` to the output `(nx, ny, nw, nh)`. -/
def anchorHolds (handle : String) (elX elY elW elH nx ny nw nh : ℚ) : Prop :=
  match handle with
  | "nw" => nx + nw = elX + elW ∧ ny + nh = elY + elH
  | "ne" => nx = elX ∧ ny + nh = elY + elH
  | "sw" => nx + nw = elX + elW ∧ ny = elY
  | "se" => nx = elX ∧ ny = elY
  | "n" => nx = elX ∧ nw = elW ∧ ny + nh = elY + elH
  | "s" => nx = elX ∧ ny = elY ∧ nw = elW
  | "w" => nx + nw = elX + elW ∧ ny = elY ∧ nh = elH
  | "e" => nx = elX ∧ ny = elY ∧ nh = elH
  | _ => True

/-! ### Concrete states for witnesses and counterexamples -/

/-- The default canvas settings of the initial history state in `page.tsx`. -/
def exampleSettingsA : CanvasSettings :=
  { meshColor := "#e2e8f0", backgroundColor := "#ffffff", canvasRatio := "16:9"
    showGrid := true, backgroundImage := none
    backgroundImageOpacity := 100, backgroundImageBrightness := 100
    backgroundImageContrast := 100, backgroundImageBlur := 0
    backgroundImageOverlay := "none", backgroundImageOverlayOpacity := 50 }

/-- Settings distinguishable from `exampleSettingsA`. -/
def exampleSettingsB : CanvasSettings :=
  { exampleSettingsA with showGrid := false }

/-- The initial snapshot. -/
def histState0 : HistoryState :=
  { elements := [], canvasSettings := exampleSettingsA, timestamp := 0, operation := "initial" }

/-- A snapshot distinguishable from `histState0` in its settings. -/
def histState1 : HistoryState :=
  { elements := [], canvasSettings := exampleSettingsB, timestamp := 1, operation := "edit" }

/-- The empty history stack at document open. -/
def histStack0 : HistoryStack :=
  { past := [], present := histState0, future := [] }

/-- A concrete text element used by witnesses. -/
def exampleTextA : TextElement :=
  { id := "a", x := 0, y := 0, width := 100, height := 40, text := "Text"
    fontSize := 16, fontFamily := "Arial", color := "#000000"
    backgroundColor := "transparent", textAlign := "left", rotation := 0
    zIndex := 1, visible := true, name := "Text 1", groupId := none }

/-- A concrete signature element used by witnesses. -/
def exampleSigA : SignatureElement :=
  { id := "sig", x := 0, y := 0, width := 100, height := 40
    svgData := "<svg></svg>", imageData := "img", originalImageData := none
    color := "#000000", rotation := 0, zIndex := 2, visible := true
    name := "Signature 1", groupId := none }

/-- A concrete page state with one element and a nonempty history. -/
def exampleApp0 : AppState :=
  { elements := [CanvasElement.text exampleTextA]
    selectedElementIds := ["a"]
    meshColor := "#e2e8f0", backgroundColor := "#ffffff", canvasRatio := "16:9"
    showGrid := true, backgroundImage := none
    backgroundImageOpacity := 100, backgroundImageBrightness := 100
    backgroundImageContrast := 100, backgroundImageBlur := 0
    backgroundImageOverlay := "none", backgroundImageOverlayOpacity := 50
    activeTool := Tool.cursor
    history := { past := [histState1], present := histState0, future := [histState1] }
    commitLog := [] }

/-- A concrete environment: canvas rect at the origin, time zero, no
prompt answers, a constant angle function. -/
def exampleEnv : Env :=
  { rect := some { left := 0, top := 0 }, now := 0
    promptKey := none, promptPlaceholder := none
    atan2deg := fun _ _ => 0 }

/-- A concrete pointer event inside `exampleTextA`. -/
def exampleEvent : MouseEvent :=
  { clientX := 10, clientY := 10, shiftKey := false }

/-- A concrete idle world. -/
def exampleWorld : CanvasWorld :=
  { app := exampleApp0, scale := 1
    isDragging := false, dragStart := (0, 0)
    dragElementId := none, potentialDragElement := none
    isResizing := false, resizeHandle := none
    resizeStart := { x := 0, y := 0, width := 0, height := 0 }
    isRotating := false, rotateStart := { x := 0, y := 0, rotation := 0 }
    isPreviewMode := false }

/-- The idle world with preview mode switched on. -/
def exampleWorldPreview : CanvasWorld :=
  { exampleWorld with isPreviewMode := true }

/-- A world in the middle of a rotation gesture on element `a`. -/
def exampleWorldRotating : CanvasWorld :=
  { exampleWorld with
    isRotating := true
    dragElementId := some "a"
    rotateStart := { x := 50, y := 0, rotation := 45 } }

/-- A world mid-drag whose dragged element id is absent from the store. -/
def exampleWorldGone : CanvasWorld :=
  { exampleWorld with isDragging := true, dragElementId := some "gone" }

/-! ### History-engine lemmas -/

theorem undoN_succ (n : ℕ) (h : HistoryStack) :
    undoN (n + 1) h = undoN n (histUndo h) := rfl

theorem histUndo_empty (h : HistoryStack) (hp : h.past = []) : histUndo h = h := by
  simp [histUndo, hp]

theorem histUndo_of_ne (h : HistoryStack) (hne : h.past ≠ []) :
    histUndo h =
      { past := h.past.dropLast
        present := h.past.getLast hne
        future := h.present :: h.future } := by
  simp [histUndo, List.getLast?_eq_getLast _ hne]

theorem mem_of_mem_dropLast {α : Type} {x : α} : ∀ {l : List α}, x ∈ l.dropLast → x ∈ l
  | [], hx => by simp at hx
  | [a], hx => by simp [List.dropLast] at hx
  | a :: b :: t, hx => by
    rw [List.dropLast_cons₂] at hx
    rcases List.mem_cons.mp hx with h1 | h2
    · exact h1 ▸ List.mem_cons_self _ _
    · exact List.mem_cons_of_mem _ (mem_of_mem_dropLast h2)

theorem undoN_present_mem : ∀ (n : ℕ) (h : HistoryStack),
    (undoN n h).present ∈ h.present :: h.past := by
  intro n
  induction n with
  | zero => intro h; exact List.mem_cons_self _ _
  | succ n ih =>
    intro h
    rw [undoN_succ]
    by_cases hp : h.past = []
    · rw [histUndo_empty h hp]; exact ih h
    · rw [histUndo_of_ne h hp]
      have hmem := ih { past := h.past.dropLast
                        present := h.past.getLast hp
                        future := h.present :: h.future }
      rcases List.mem_cons.mp hmem with h1 | h2
      · rw [h1]
        exact List.mem_cons_of_mem _ (List.getLast_mem hp)
      · exact List.mem_cons_of_mem _ (mem_of_mem_dropLast h2)

theorem undoN_present_getD : ∀ (n : ℕ) (h : HistoryStack), n ≤ h.past.length →
    (undoN n h).present = (h.past ++ [h.present]).getD (h.past.length - n) histState0 := by
  intro n
  induction n with
  | zero =>
    intro h _
    rw [Nat.sub_zero, List.getD_append_right _ _ _ _ (le_refl _), Nat.sub_self]
    rfl
  | succ n ih =>
    intro h hn
    have hne : h.past ≠ [] := by
      intro he
      rw [he] at hn
      simp at hn
    rw [undoN_succ, histUndo_of_ne h hne]
    have hlen : n ≤ (h.past.dropLast).length := by
      rw [List.length_dropLast]
      omega
    rw [ih _ hlen]
    simp only [List.length_dropLast]
    rw [List.dropLast_append_getLast hne]
    have hidx : h.past.length - (n + 1) < h.past.length := by
      have hpos : 0 < h.past.length := List.length_pos.mpr hne
      omega
    rw [List.getD_append _ _ _ _ hidx]
    congr 1
    omega

theorem commitN_concat (σs : List HistoryState) (σ : HistoryState) (h : HistoryStack) :
    commitN (σs ++ [σ]) h = histCommit (commitN σs h) σ := by
  simp [commitN, List.foldl_append]

theorem dropLast_concat_getLastD {α : Type} : ∀ (l : List α) (a : α),
    (a :: l).dropLast ++ [l.getLastD a] = a :: l
  | [], a => by simp
  | b :: t, a => by
    rw [List.dropLast_cons₂, List.getLastD_cons, List.cons_append,
      dropLast_concat_getLastD t b]

theorem commitN_struct : ∀ (σs : List HistoryState) (h : HistoryStack), σs.length ≤ 100 →
    (commitN σs h).present = σs.getLastD h.present ∧
    ∃ P : List HistoryState, (commitN σs h).past = P ++ (h.present :: σs).dropLast := by
  intro σs
  induction σs using List.reverseRecOn with
  | nil =>
    intro h _
    exact ⟨rfl, h.past, by simp [commitN]⟩
  | append_singleton σs σ ih =>
    intro h hlen
    have hlen' : σs.length ≤ 100 := by
      simp [List.length_append] at hlen
      omega
    obtain ⟨hpres, P, hpast⟩ := ih h hlen'
    rw [commitN_concat]
    have hnew : (commitN σs h).past ++ [(commitN σs h).present] = P ++ (h.present :: σs) := by
      rw [hpast, hpres, List.append_assoc, dropLast_concat_getLastD]
    have hdrop : (h.present :: (σs ++ [σ])).dropLast = h.present :: σs := by
      rw [show h.present :: (σs ++ [σ]) = (h.present :: σs) ++ [σ] from rfl,
        List.dropLast_concat]
    have hlen2 : σs.length + 1 ≤ 100 := by
      simp [List.length_append] at hlen
      omega
    constructor
    · simp [histCommit, List.getLastD_concat]
    · simp only [histCommit, hnew, hdrop]
      by_cases hc : MAX_HISTORY_SIZE < (P ++ h.present :: σs).length
      · rw [if_pos hc]
        cases P with
        | nil =>
          exfalso
          simp [MAX_HISTORY_SIZE] at hc
          omega
        | cons p Ps =>
          exact ⟨Ps, rfl⟩
      · rw [if_neg hc]
        exact ⟨P, rfl⟩

/-- C1: for every initial history stack and every sequence of `N`
commits followed by `N` undos with `N ≤ 100` (so that none of the `N`
pushed entries is evicted by the 100-entry cap), the resulting present
state equals the present state before the first commit.  The original
claim, with `N` unbounded, fails at `N = 101`
(see the counterexample). -/
theorem commit_then_undo_roundtrip (h : HistoryStack) (σs : List HistoryState)
    (hlen : σs.length ≤ 100) :
    (undoN σs.length (commitN σs h)).present = h.present := by
  obtain ⟨hpres, P, hpast⟩ := commitN_struct σs h hlen
  have hdl : (h.present :: σs).dropLast.length = σs.length := by
    rw [List.length_dropLast]
    simp
  have hplen : (commitN σs h).past.length = P.length + σs.length := by
    rw [hpast, List.length_append, hdl]
  have hle : σs.length ≤ (commitN σs h).past.length := by omega
  rw [undoN_present_getD _ _ hle, hpast, hpres]
  have hidx : (P ++ (h.present :: σs).dropLast).length - σs.length = P.length := by
    rw [List.length_append, hdl]
    omega
  rw [hidx, List.append_assoc, dropLast_concat_getLastD,
    List.getD_append_right _ _ _ _ (le_refl P.length), Nat.sub_self]
  rfl

theorem commit_then_undo_roundtrip_witness :
    (1 : ℕ) ≤ 100 ∧ (undoN 1 (commitN [histState1] histStack0)).present = histStack0.present :=
  ⟨by decide, commit_then_undo_roundtrip histStack0 [histState1] (by decide)⟩

set_option maxRecDepth 10000 in
set_option maxHeartbeats 1000000 in
/-- C1 counterexample: starting from the empty history stack, 101
commits followed by 101 undos do not restore the pre-commit present
state (elements and canvas settings): the 101st commit evicts the
initial present from `past`, so the undos bottom out one state late. -/
theorem commit_then_undo_roundtrip_cex :
    ¬ ((undoN 101 (commitN (List.replicate 101 histState1) histStack0)).present.elements
          = histStack0.present.elements ∧
       (undoN 101 (commitN (List.replicate 101 histState1) histStack0)).present.canvasSettings
          = histStack0.present.canvasSettings) := by
  have hH : commitN (List.replicate 101 histState1) histStack0 =
      { past := List.replicate 100 histState1, present := histState1, future := [] } := by
    decide
  rw [hH]
  rintro ⟨-, hset⟩
  have hmem := undoN_present_mem 101
    { past := List.replicate 100 histState1, present := histState1, future := [] }
  have heq : (undoN 101
      { past := List.replicate 100 histState1, present := histState1,
        future := ([] : List HistoryState) }).present = histState1 := by
    rcases List.mem_cons.mp hmem with h1 | h2
    · exact h1
    · exact List.eq_of_mem_replicate h2
  rw [heq] at hset
  exact absurd hset (by decide)

/-- C2: immediately after every commit the future stack is empty, and
an undo performed while the future stack is empty followed by a single
redo restores the present state that held just before the undo. -/
theorem commit_clears_future_undo_redo_restores :
    (∀ (h : HistoryStack) (σ : HistoryState), (histCommit h σ).future = []) ∧
    (∀ h : HistoryStack, h.future = [] → (histRedo (histUndo h)).present = h.present) := by
  constructor
  · intro h σ
    rfl
  · intro h hfut
    by_cases hp : h.past = []
    · rw [histUndo_empty h hp]
      simp [histRedo, hfut]
    · rw [histUndo_of_ne h hp]
      simp [histRedo]

theorem commit_clears_future_undo_redo_restores_witness :
    (histRedo (histUndo
        { past := [histState1], present := histState0, future := ([] : List HistoryState) })).present
      = histState0 :=
  commit_clears_future_undo_redo_restores.2
    { past := [histState1], present := histState0, future := [] } rfl

theorem histInv_preserved : ∀ (ops : List HistOp) (h : HistoryStack),
    h.past.length + h.future.length ≤ 100 →
    (applyHistOps ops h).past.length + (applyHistOps ops h).future.length ≤ 100 := by
  intro ops
  induction ops with
  | nil => intro h hh; exact hh
  | cons op ops ih =>
    intro h hh
    have hstep : (applyHistOp h op).past.length + (applyHistOp h op).future.length ≤ 100 := by
      cases op with
      | commit σ =>
        simp only [applyHistOp, histCommit]
        by_cases hc : MAX_HISTORY_SIZE < (h.past ++ [h.present]).length
        · rw [if_pos hc]
          simp [List.length_tail, List.length_append]
          omega
        · rw [if_neg hc]
          simp [List.length_append, MAX_HISTORY_SIZE] at hc ⊢
          omega
      | undo =>
        cases hp : h.past.getLast? with
        | none => simpa [applyHistOp, histUndo, hp] using hh
        | some prev =>
          have hne : h.past ≠ [] := by
            intro he
            rw [he] at hp
            simp at hp
          have hpos : 0 < h.past.length := List.length_pos.mpr hne
          simp [applyHistOp, histUndo, hp, List.length_dropLast]
          omega
      | redo =>
        cases hf : h.future with
        | nil => simpa [applyHistOp, histRedo, hf] using hh
        | cons nx rest =>
          rw [hf] at hh
          simp [applyHistOp, histRedo, hf, List.length_append]
          simp at hh
          omega
    exact ih _ hstep

set_option maxRecDepth 10000 in
set_option maxHeartbeats 1000000 in
/-- C3: under every sequence of commit / undo / redo operations from an
empty history the past stack never exceeds 100 entries; after 101
commits the oldest committed state (the present that the first commit
pushed) is unreachable by any number of undos; and 100 commits, one
undo, then one commit leave `future` empty and `past` at exactly 100
entries. -/
theorem past_bounded_and_eviction :
    (∀ (p : HistoryState) (ops : List HistOp),
        (applyHistOps ops { past := [], present := p, future := [] }).past.length ≤ 100) ∧
    (∀ k : ℕ,
        (undoN k (commitN (List.replicate 101 histState1) histStack0)).present
          ≠ histStack0.present) ∧
    ((histCommit (histUndo (commitN (List.replicate 100 histState1) histStack0))
        histState1).future = [] ∧
     (histCommit (histUndo (commitN (List.replicate 100 histState1) histStack0))
        histState1).past.length = 100) := by
  refine ⟨?_, ?_, ?_⟩
  · intro p ops
    have hinv := histInv_preserved ops { past := [], present := p, future := [] } (by simp)
    omega
  · intro k
    have hH : commitN (List.replicate 101 histState1) histStack0 =
        { past := List.replicate 100 histState1, present := histState1, future := [] } := by
      decide
    rw [hH]
    have hmem := undoN_present_mem k
      { past := List.replicate 100 histState1, present := histState1, future := [] }
    have heq : (undoN k
        { past := List.replicate 100 histState1, present := histState1,
          future := ([] : List HistoryState) }).present = histState1 := by
      rcases List.mem_cons.mp hmem with h1 | h2
      · exact h1
      · exact List.eq_of_mem_replicate h2
    rw [heq]
    decide
  · decide

/-- C9: undo and redo restore the popped snapshot's elements and canvas
settings to live state but never modify the selected-element-id set. -/
theorem undo_redo_preserve_selection (s : AppState) (prev next : HistoryState)
    (rest : List HistoryState)
    (hpast : s.history.past.getLast? = some prev)
    (hfut : s.history.future = next :: rest) :
    (undo s).selectedElementIds = s.selectedElementIds ∧
    (redo s).selectedElementIds = s.selectedElementIds ∧
    (undo s).elements = prev.elements ∧
    currentCanvasSettings (undo s) = prev.canvasSettings ∧
    (redo s).elements = next.elements ∧
    currentCanvasSettings (redo s) = next.canvasSettings := by
  refine ⟨?_, ?_, ?_, ?_, ?_, ?_⟩ <;>
    simp [undo, redo, hpast, hfut, currentCanvasSettings]

theorem undo_redo_preserve_selection_witness :
    (undo exampleApp0).selectedElementIds = exampleApp0.selectedElementIds ∧
    (undo exampleApp0).elements = histState1.elements :=
  ⟨(undo_redo_preserve_selection exampleApp0 histState1 histState1 [] (by decide) (by decide)).1,
   (undo_redo_preserve_selection exampleApp0 histState1 histState1 [] (by decide) (by decide)).2.2.1⟩

/-! ### Rotation normalization lemmas -/

theorem jsRotationNormalize_eq_specNormalize360 (r : ℚ) :
    jsRotationNormalize r = specNormalize360 r := by
  unfold jsRotationNormalize jsRem ratTrunc specNormalize360
  have hfl : (⌊r / 360⌋ : ℚ) ≤ r / 360 := Int.floor_le _
  have hfl1 : r / 360 < (⌊r / 360⌋ : ℚ) + 1 := Int.lt_floor_add_one _
  have hmul : r / 360 * 360 = r := div_mul_cancel₀ r (by norm_num)
  by_cases h0 : 0 ≤ r / 360
  · rw [if_pos h0]
    have hge : ¬ (r - 360 * (⌊r / 360⌋ : ℚ) < 0) := by
      push_neg
      nlinarith
    rw [if_neg hge]
  · rw [if_neg h0]
    push_neg at h0
    by_cases hint : ⌈r / 360⌉ = ⌊r / 360⌋
    · rw [hint]
      have hge : ¬ (r - 360 * (⌊r / 360⌋ : ℚ) < 0) := by
        push_neg
        nlinarith
      rw [if_neg hge]
    · have hlt : ⌊r / 360⌋ < ⌈r / 360⌉ :=
        lt_of_le_of_ne (Int.floor_le_ceil _) (fun he => hint he.symm)
      have hceil : ⌈r / 360⌉ = ⌊r / 360⌋ + 1 :=
        le_antisymm (Int.ceil_le_floor_add_one _) (by omega)
      rw [hceil]
      have hneg : r - 360 * ((⌊r / 360⌋ : ℤ) + 1 : ℤ) < 0 := by
        push_cast
        nlinarith
      rw [if_pos hneg]
      push_cast
      ring

theorem jsRotationNormalize_bounds (r : ℚ) :
    0 ≤ jsRotationNormalize r ∧ jsRotationNormalize r < 360 := by
  rw [jsRotationNormalize_eq_specNormalize360]
  unfold specNormalize360
  have hfl : (⌊r / 360⌋ : ℚ) ≤ r / 360 := Int.floor_le _
  have hfl1 : r / 360 < (⌊r / 360⌋ : ℚ) + 1 := Int.lt_floor_add_one _
  have hmul : r / 360 * 360 = r := div_mul_cancel₀ r (by norm_num)
  constructor
  · nlinarith
  · nlinarith

theorem setRotation_id (el : CanvasElement) (r : ℚ) : (el.setRotation r).id = el.id := by
  cases el <;> rfl

theorem setRotation_isGeometric (el : CanvasElement) (r : ℚ) :
    (el.setRotation r).isGeometric = el.isGeometric := by
  cases el <;> rfl

theorem setRotation_rotation (el : CanvasElement) (r : ℚ) (hg : el.isGeometric = true) :
    (el.setRotation r).rotation = r := by
  cases el <;> first
    | rfl
    | simp [CanvasElement.isGeometric] at hg

/-- C5: after a rotation-gesture move event the affected element's
rotation equals the normalization of the gesture-start rotation plus
the angle delta (current pointer angle minus start angle, both from the
element's fixed center), and that normalization always lands in
`[0, 360)` — for every angle function, hence for every sequence of
pointer positions. -/
theorem rotation_stays_normalized (env : Env) (e : MouseEvent) (w : CanvasWorld)
    (dragId : String) (element : CanvasElement) (rect : Rect)
    (hpm : w.isPreviewMode = false)
    (hd : w.isDragging = false)
    (hre : w.isResizing = false)
    (hro : w.isRotating = true)
    (hdid : w.dragElementId = some dragId)
    (hrect : env.rect = some rect)
    (hfind : w.app.elements.find? (fun el => el.id == dragId) = some element)
    (hgeo : element.isGeometric = true) :
    (∀ el ∈ (handleMouseMove env e w).app.elements, el.id = dragId → el.isGeometric = true →
        el.rotation = rotationFromGesture w.rotateStart.rotation
          (calculateRotationAngle env (element.x + element.width / 2)
            (element.y + element.height / 2)
            ((e.clientX - rect.left) / w.scale) ((e.clientY - rect.top) / w.scale))
          (calculateRotationAngle env (element.x + element.width / 2)
            (element.y + element.height / 2) w.rotateStart.x w.rotateStart.y) ∧
        0 ≤ el.rotation ∧ el.rotation < 360) ∧
    (∀ r : ℚ, jsRotationNormalize r = specNormalize360 r ∧
        0 ≤ jsRotationNormalize r ∧ jsRotationNormalize r < 360) := by
  constructor
  · have hres : (handleMouseMove env e w).app.elements =
        w.app.elements.map (fun el =>
          if el.id == dragId && el.isGeometric then
            el.setRotation (rotationFromGesture w.rotateStart.rotation
              (calculateRotationAngle env (element.x + element.width / 2)
                (element.y + element.height / 2)
                ((e.clientX - rect.left) / w.scale) ((e.clientY - rect.top) / w.scale))
              (calculateRotationAngle env (element.x + element.width / 2)
                (element.y + element.height / 2) w.rotateStart.x w.rotateStart.y))
          else el) := by
      simp [handleMouseMove, hpm, hd, hre, hro, hdid, hrect, hfind, hgeo]
    intro el hel hid hgel
    rw [hres] at hel
    obtain ⟨a, ha, rfl⟩ := List.mem_map.mp hel
    by_cases hc : (a.id == dragId && a.isGeometric) = true
    · rw [if_pos hc] at hid hgel ⊢
      have hag : a.isGeometric = true := by
        rcases Bool.and_eq_true_iff.mp hc with ⟨-, h2⟩
        exact h2
      refine ⟨setRotation_rotation a _ hag, ?_⟩
      rw [setRotation_rotation a _ hag]
      exact jsRotationNormalize_bounds _
    · rw [if_neg hc] at hid hgel ⊢
      exfalso
      exact hc (by simp [hid, hgel])
  · intro r
    exact ⟨jsRotationNormalize_eq_specNormalize360 r, jsRotationNormalize_bounds r⟩

theorem rotation_stays_normalized_witness :
    0 ≤ jsRotationNormalize 500 ∧ jsRotationNormalize 500 < 360 :=
  ((rotation_stays_normalized exampleEnv exampleEvent exampleWorldRotating "a"
      (CanvasElement.text exampleTextA) { left := 0, top := 0 }
      rfl rfl rfl rfl rfl rfl (by decide) rfl).2 500).2

/-- C4: every per-move resize update clamps width and height to at
least 20 (given the invariant that the element entered the update with
dimensions at least 20, which covers the dimensions a handle leaves
untouched), preserves the anchor opposite the dragged handle, agrees
with the spec's formulas for handles `nw` and `se`, and reproduces the
two concrete scenarios. -/
theorem resize_clamps_and_anchors (elX elY elW elH startW startH deltaX deltaY : ℚ)
    (hw : 20 ≤ elW) (hh : 20 ≤ elH) :
    (∀ handle ∈ (["nw", "ne", "sw", "se", "n", "s", "w", "e"] : List String),
        20 ≤ (resizeGeometry handle elX elY elW elH startW startH deltaX deltaY).2.2.1 ∧
        20 ≤ (resizeGeometry handle elX elY elW elH startW startH deltaX deltaY).2.2.2 ∧
        anchorHolds handle elX elY elW elH
          (resizeGeometry handle elX elY elW elH startW startH deltaX deltaY).1
          (resizeGeometry handle elX elY elW elH startW startH deltaX deltaY).2.1
          (resizeGeometry handle elX elY elW elH startW startH deltaX deltaY).2.2.1
          (resizeGeometry handle elX elY elW elH startW startH deltaX deltaY).2.2.2) ∧
    (∀ originX originY : ℚ, elX + elW = originX + startW → elY + elH = originY + startH →
        resizeGeometry "nw" elX elY elW elH startW startH deltaX deltaY
          = specResizeNW originX originY startW startH deltaX deltaY) ∧
    (resizeGeometry "se" elX elY elW elH startW startH deltaX deltaY
        = specResizeSE elX elY startW startH deltaX deltaY) ∧
    (resizeGeometry "se" 100 100 200 100 200 100 50 30 = (100, 100, 250, 130)) ∧
    (resizeGeometry "nw" 100 100 200 100 200 100 20 10 = (120, 110, 180, 90)) := by
  refine ⟨?_, ?_, ?_, ?_, ?_⟩
  · intro handle hm
    fin_cases hm <;>
      simp [resizeGeometry, anchorHolds] <;>
      and_intros <;>
      first
        | exact le_max_left _ _
        | exact hw
        | exact hh
        | ring
  · intro originX originY h1 h2
    have e1 : elX + (elW - max 20 (startW - deltaX))
        = originX + (startW - max 20 (startW - deltaX)) := by linarith
    have e2 : elY + (elH - max 20 (startH - deltaY))
        = originY + (startH - max 20 (startH - deltaY)) := by linarith
    simp [resizeGeometry, specResizeNW, e1, e2]
  · rfl
  · simp [resizeGeometry, max_def, Prod.ext_iff]
    norm_num
  · simp [resizeGeometry, max_def, Prod.ext_iff]
    norm_num

theorem resize_clamps_and_anchors_witness :
    resizeGeometry "nw" 100 100 200 100 200 100 20 10 = specResizeNW 100 100 200 100 20 10 :=
  (resize_clamps_and_anchors 100 100 200 100 200 100 20 10
      (by norm_num) (by norm_num)).2.1 100 100 (by norm_num) (by norm_num)

/-- C10: whenever preview mode is active, each of the three pointer
handlers returns the world unchanged: no element creation or mutation,
no history commit, no gesture-state change. -/
theorem preview_mode_inert (env : Env) (e : MouseEvent) (now : ℕ) (w : CanvasWorld)
    (hpm : w.isPreviewMode = true) :
    handleMouseDown env e w = w ∧ handleMouseMove env e w = w ∧ handleMouseUp now w = w := by
  refine ⟨?_, ?_, ?_⟩ <;> simp [handleMouseDown, handleMouseMove, handleMouseUp, hpm]

theorem preview_mode_inert_witness :
    handleMouseDown exampleEnv exampleEvent exampleWorldPreview = exampleWorldPreview ∧
    handleMouseMove exampleEnv exampleEvent exampleWorldPreview = exampleWorldPreview ∧
    handleMouseUp 0 exampleWorldPreview = exampleWorldPreview :=
  preview_mode_inert exampleEnv exampleEvent 0 exampleWorldPreview rfl


/-- C8 counterexample: non-additive `selectElement` with the sentinel
empty string does not make the selection set empty — the code installs
the singleton list containing the empty string. -/
theorem select_sentinel_cex :
    (selectElement exampleApp0 "" false).selectedElementIds ≠ ([] : List String) := by
  decide

/-- C8 amended: non-additive select always yields exactly the
singleton `[id]` — including for the sentinel empty string, which
matches no stored element (all real ids are nonempty), so the set of
selected elements is then empty; additive select toggles membership of
`id` and leaves every other member unchanged. -/
theorem select_semantics (s : AppState) (elementId : String) :
    ((selectElement s elementId false).selectedElementIds = [elementId]) ∧
    (elementId ∈ s.selectedElementIds →
      (selectElement s elementId true).selectedElementIds
        = s.selectedElementIds.filter (fun i => i ≠ elementId)) ∧
    (elementId ∉ s.selectedElementIds →
      (selectElement s elementId true).selectedElementIds
        = s.selectedElementIds ++ [elementId]) ∧
    (elementId ∈ (selectElement s elementId true).selectedElementIds
      ↔ elementId ∉ s.selectedElementIds) ∧
    (∀ other : String, other ≠ elementId →
      (other ∈ (selectElement s elementId true).selectedElementIds
        ↔ other ∈ s.selectedElementIds)) ∧
    ((∀ el ∈ s.elements, el.id ≠ "") →
      selectedElements (selectElement s "" false) = []) := by
  refine ⟨rfl, ?_, ?_, ?_, ?_, ?_⟩
  · intro hmem
    simp [selectElement, List.elem_iff, hmem]
  · intro hmem
    simp [selectElement, List.elem_iff, hmem]
  · by_cases hmem : elementId ∈ s.selectedElementIds
    · simp [selectElement, List.elem_iff, hmem, List.mem_filter]
    · simp [selectElement, List.elem_iff, hmem]
  · intro other hne
    by_cases hmem : elementId ∈ s.selectedElementIds
    · simp [selectElement, List.elem_iff, hmem, List.mem_filter, hne]
    · simp [selectElement, List.elem_iff, hmem, hne]
  · intro hids
    have hsel : (selectElement s "" false).selectedElementIds = [""] := rfl
    have hels : (selectElement s "" false).elements = s.elements := rfl
    unfold selectedElements
    rw [hsel, hels, List.filter_eq_nil_iff]
    intro el hel
    have hne : (el.id == "") = false := beq_eq_false_iff_ne.mpr (hids el hel)
    simp [List.contains_cons, hne]
    exact hids el hel

theorem select_semantics_witness :
    (selectElement exampleApp0 "b" false).selectedElementIds = ["b"] ∧
    (selectElement exampleApp0 "b" true).selectedElementIds
      = exampleApp0.selectedElementIds ++ ["b"] :=
  ⟨(select_semantics exampleApp0 "b").1,
   (select_semantics exampleApp0 "b").2.2.1 (by decide)⟩

theorem map_noop {α : Type} (f : α → α) : ∀ (l : List α), (∀ a ∈ l, f a = a) → l.map f = l
  | [], _ => rfl
  | a :: t, h => by
    rw [List.map_cons, h a (List.mem_cons_self a t),
      map_noop f t (fun b hb => h b (List.mem_cons_of_mem a hb))]

/-- `handleMouseMove` never pushes to history: the commit log is
untouched by every branch. -/
theorem handleMouseMove_commitLog (env : Env) (e : MouseEvent) (w : CanvasWorld) :
    (handleMouseMove env e w).app.commitLog = w.app.commitLog := by
  unfold handleMouseMove
  repeat' split <;> try rfl

/-- When the gesture's element id is absent from the store, every
branch of `handleMouseMove` leaves the element store's contents
unchanged. -/
theorem handleMouseMove_gone_elements (env : Env) (e : MouseEvent) (w : CanvasWorld)
    (dragId : String)
    (hdid : w.dragElementId = some dragId)
    (hgone : ∀ el ∈ w.app.elements, el.id ≠ dragId) :
    (handleMouseMove env e w).app.elements = w.app.elements := by
  have hbeq : ∀ a ∈ w.app.elements, (a.id == dragId) = false := by
    intro a ha
    exact beq_eq_false_iff_ne.mpr (hgone a ha)
  have hfind : w.app.elements.find? (fun el => el.id == dragId) = none := by
    rw [List.find?_eq_none]
    intro x hx
    simp [hbeq x hx]
  unfold handleMouseMove
  rw [hdid]
  repeat' split <;> try rfl
  all_goals first
    | (exfalso
       injections
       subst_vars
       simp only [hfind] at *
       done)
    | (injections
       subst_vars
       exact map_noop _ _ (fun a ha => by simp [hbeq a ha]))

/-- C7 counterexample: with a drag gesture in flight whose element id
is absent from the store, pointer-up still performs a history commit
(the commit log grows), contradicting the claim that it performs none. -/
theorem gesture_gone_commit_cex :
    (handleMouseUp 0 exampleWorldGone).app.commitLog ≠ exampleWorldGone.app.commitLog := by
  decide

/-- C7 amended: when the gesture's element id is absent from the store,
every pointer-move leaves the element store's contents and the commit
log unchanged; but the terminating pointer-up still performs its
per-flag history commit — for a drag, exactly one `move_element`
commit whose snapshot equals the unchanged store. -/
theorem gesture_gone_moves_noop (env : Env) (e : MouseEvent) (now : ℕ) (w : CanvasWorld)
    (dragId : String)
    (hpm : w.isPreviewMode = false)
    (hdid : w.dragElementId = some dragId)
    (hgone : ∀ el ∈ w.app.elements, el.id ≠ dragId) :
    ((handleMouseMove env e w).app.elements = w.app.elements ∧
     (handleMouseMove env e w).app.commitLog = w.app.commitLog) ∧
    (w.isDragging = true → w.isResizing = false → w.isRotating = false →
      (handleMouseUp now w).app.commitLog
          = w.app.commitLog ++ [("move_element", w.app.elements)] ∧
      (handleMouseUp now w).app.elements = w.app.elements) := by
  refine ⟨⟨handleMouseMove_gone_elements env e w dragId hdid hgone,
    handleMouseMove_commitLog env e w⟩, ?_⟩
  intro h1 h2 h3
  simp [handleMouseUp, hpm, hdid, h1, h2, h3, updateElements, saveToHistory]

theorem gesture_gone_moves_noop_witness :
    (handleMouseMove exampleEnv exampleEvent exampleWorldGone).app.elements
        = exampleWorldGone.app.elements ∧
    (handleMouseUp 0 exampleWorldGone).app.commitLog
        = exampleWorldGone.app.commitLog ++ [("move_element", exampleWorldGone.app.elements)] :=
  ⟨(gesture_gone_moves_noop exampleEnv exampleEvent 0 exampleWorldGone "gone"
      rfl rfl (by decide)).1.1,
   ((gesture_gone_moves_noop exampleEnv exampleEvent 0 exampleWorldGone "gone"
      rfl rfl (by decide)).2 rfl rfl rfl).1⟩

theorem findClickedElement_variant (elements : List CanvasElement) (x y : ℚ)
    (c : CanvasElement) (h : findClickedElement elements x y = some c) :
    (c.isText || c.isLabel) = true := by
  have hp := List.find?_some h
  simp only [Bool.and_eq_true] at hp
  exact hp.1.1.1.1

theorem handleMouseMove_dragging (env : Env) (e : MouseEvent) (v : CanvasWorld) (cid : String)
    (h1 : v.isPreviewMode = false)
    (h2 : v.app.activeTool = Tool.cursor)
    (h3 : v.isDragging = true)
    (h4 : v.dragElementId = some cid)
    (h5 : v.isResizing = false)
    (h6 : v.isRotating = false) :
    (handleMouseMove env e v).isPreviewMode = false ∧
    (handleMouseMove env e v).app.activeTool = Tool.cursor ∧
    (handleMouseMove env e v).isDragging = true ∧
    (handleMouseMove env e v).dragElementId = some cid ∧
    (handleMouseMove env e v).isResizing = false ∧
    (handleMouseMove env e v).isRotating = false := by
  cases hrect2 : env.rect <;>
    simp [handleMouseMove, h1, h2, h3, h4, h5, h6, hrect2]

theorem applyMoves_dragging (env : Env) (cid : String) : ∀ (ms : List MouseEvent) (v : CanvasWorld),
    v.isPreviewMode = false → v.app.activeTool = Tool.cursor → v.isDragging = true →
    v.dragElementId = some cid → v.isResizing = false → v.isRotating = false →
    ((applyMoves env ms v).isPreviewMode = false ∧
     (applyMoves env ms v).app.activeTool = Tool.cursor ∧
     (applyMoves env ms v).isDragging = true ∧
     (applyMoves env ms v).dragElementId = some cid ∧
     (applyMoves env ms v).isResizing = false ∧
     (applyMoves env ms v).isRotating = false ∧
     (applyMoves env ms v).app.commitLog = v.app.commitLog)
  | [], v, h1, h2, h3, h4, h5, h6 => ⟨h1, h2, h3, h4, h5, h6, rfl⟩
  | m :: ms, v, h1, h2, h3, h4, h5, h6 => by
    have hstep := handleMouseMove_dragging env m v cid h1 h2 h3 h4 h5 h6
    have hlog := handleMouseMove_commitLog env m v
    have hrec := applyMoves_dragging env cid ms (handleMouseMove env m v)
      hstep.1 hstep.2.1 hstep.2.2.1 hstep.2.2.2.1 hstep.2.2.2.2.1 hstep.2.2.2.2.2
    refine ⟨hrec.1, hrec.2.1, hrec.2.2.1, hrec.2.2.2.1, hrec.2.2.2.2.1, hrec.2.2.2.2.2.1, ?_⟩
    rw [show applyMoves env (m :: ms) v = applyMoves env ms (handleMouseMove env m v) from rfl,
      hrec.2.2.2.2.2.2, hlog]

theorem findClicked_example :
    findClickedElement exampleWorld.app.elements
      ((exampleEvent.clientX - (Rect.mk 0 0).left) / exampleWorld.scale)
      ((exampleEvent.clientY - (Rect.mk 0 0).top) / exampleWorld.scale)
      = some (CanvasElement.text exampleTextA) := by
  norm_num [findClickedElement, exampleWorld, exampleApp0, exampleTextA, exampleEvent,
    CanvasElement.isText, CanvasElement.isLabel, CanvasElement.x, CanvasElement.y,
    CanvasElement.width, CanvasElement.height, List.find?]

/-- C6 counterexample: a pointer-down on a signature (or media)
element — whose own `onMouseDown` enters the dragging state
immediately, with no pending-drag stage — followed by pointer-up with
zero intervening moves still performs a history commit: the commit log
grows, refuting the claim's zero-commit half as stated for every
element. -/
theorem zero_move_click_commit_cex :
    (handleMouseUp 0 (handleElementMouseDown exampleEnv exampleEvent
        (CanvasElement.signature exampleSigA) exampleWorld)).app.commitLog
      ≠ exampleWorld.app.commitLog := by
  decide

/-- C6 amended: a pointer-down on a text or label element (the
canvas-level pending-drag path) followed immediately by pointer-up
with no intervening move performs no history commit and leaves the
element store unchanged, and with at least one move performs exactly
one commit (`move_element`) carrying the element store as it stands
after the final move; but a pointer-down on a signature or media
element enters dragging immediately, so even a zero-move click
performs exactly one `move_element` commit, whose snapshot equals the
unchanged element store. -/
theorem click_commit_semantics (env : Env) (e : MouseEvent) (now : ℕ) (w : CanvasWorld)
    (rect : Rect) (clicked : CanvasElement) (moves : List MouseEvent)
    (hpm : w.isPreviewMode = false)
    (htool : w.app.activeTool = Tool.cursor)
    (hd : w.isDragging = false)
    (hre : w.isResizing = false)
    (hro : w.isRotating = false)
    (hrect : env.rect = some rect)
    (hfindc : findClickedElement w.app.elements ((e.clientX - rect.left) / w.scale)
        ((e.clientY - rect.top) / w.scale) = some clicked) :
    ((handleMouseUp now (handleMouseDown env e w)).app.commitLog = w.app.commitLog ∧
     (handleMouseUp now (handleMouseDown env e w)).app.elements = w.app.elements) ∧
    (e.shiftKey = false → moves ≠ [] →
      (handleMouseUp now (applyMoves env moves (handleMouseDown env e w))).app.commitLog
        = w.app.commitLog
            ++ [("move_element", (applyMoves env moves (handleMouseDown env e w)).app.elements)] ∧
      (handleMouseUp now (applyMoves env moves (handleMouseDown env e w))).app.elements
        = (applyMoves env moves (handleMouseDown env e w)).app.elements) ∧
    (∀ sigEl : CanvasElement,
      (handleMouseUp now (handleElementMouseDown env e sigEl w)).app.commitLog
        = w.app.commitLog ++ [("move_element", w.app.elements)] ∧
      (handleMouseUp now (handleElementMouseDown env e sigEl w)).app.elements
        = w.app.elements) := by
  have hvar := findClickedElement_variant _ _ _ _ hfindc
  refine ⟨?_, ?_, ?_⟩
  · have hdown : (handleMouseDown env e w).app.commitLog = w.app.commitLog ∧
        (handleMouseDown env e w).app.elements = w.app.elements ∧
        (handleMouseDown env e w).isDragging = false ∧
        (handleMouseDown env e w).isResizing = false ∧
        (handleMouseDown env e w).isRotating = false ∧
        (handleMouseDown env e w).isPreviewMode = false := by
      cases hs : e.shiftKey <;>
        simp [handleMouseDown, hpm, htool, hrect, hfindc, hvar, hs, selectElement, hd, hre, hro]
    simp [handleMouseUp, hdown.1, hdown.2.1, hdown.2.2.1, hdown.2.2.2.1,
      hdown.2.2.2.2.1, hdown.2.2.2.2.2]
  · intro hs hne
    cases moves with
    | nil => exact absurd rfl hne
    | cons m ms =>
      have hdown : (handleMouseDown env e w).app.commitLog = w.app.commitLog ∧
          (handleMouseDown env e w).app.activeTool = Tool.cursor ∧
          (handleMouseDown env e w).isDragging = false ∧
          (handleMouseDown env e w).isResizing = false ∧
          (handleMouseDown env e w).isRotating = false ∧
          (handleMouseDown env e w).isPreviewMode = false ∧
          (handleMouseDown env e w).potentialDragElement = some clicked.id := by
        simp [handleMouseDown, hpm, htool, hrect, hfindc, hvar, hs, selectElement, hd, hre, hro]
      have hm1 : (handleMouseMove env m (handleMouseDown env e w)).isPreviewMode = false ∧
          (handleMouseMove env m (handleMouseDown env e w)).app.activeTool = Tool.cursor ∧
          (handleMouseMove env m (handleMouseDown env e w)).isDragging = true ∧
          (handleMouseMove env m (handleMouseDown env e w)).dragElementId = some clicked.id ∧
          (handleMouseMove env m (handleMouseDown env e w)).isResizing = false ∧
          (handleMouseMove env m (handleMouseDown env e w)).isRotating = false := by
        cases hrect2 : env.rect <;>
          simp [handleMouseMove, hdown.2.1, hdown.2.2.1, hdown.2.2.2.1,
            hdown.2.2.2.2.1, hdown.2.2.2.2.2.1, hdown.2.2.2.2.2.2, hrect2]
      have hlog1 := handleMouseMove_commitLog env m (handleMouseDown env e w)
      have hinv := applyMoves_dragging env clicked.id ms
        (handleMouseMove env m (handleMouseDown env e w))
        hm1.1 hm1.2.1 hm1.2.2.1 hm1.2.2.2.1 hm1.2.2.2.2.1 hm1.2.2.2.2.2
      have hsteps : applyMoves env (m :: ms) (handleMouseDown env e w)
          = applyMoves env ms (handleMouseMove env m (handleMouseDown env e w)) := rfl
      rw [hsteps]
      have hfin := hinv
      constructor
      · simp [handleMouseUp, hfin.1, hfin.2.2.1, hfin.2.2.2.1, hfin.2.2.2.2.1,
          hfin.2.2.2.2.2.1, updateElements, saveToHistory]
        rw [hfin.2.2.2.2.2.2, hlog1, hdown.1]
      · simp [handleMouseUp, hfin.1, hfin.2.2.1, hfin.2.2.2.1, hfin.2.2.2.2.1,
          hfin.2.2.2.2.2.1, updateElements, saveToHistory]
  · intro sigEl
    cases hs : e.shiftKey <;>
      simp [handleMouseUp, handleElementMouseDown, selectElement, hpm, hrect, hre, hro,
        hs, updateElements, saveToHistory]

theorem click_commit_semantics_witness :
    (handleMouseUp 0 (handleMouseDown exampleEnv exampleEvent exampleWorld)).app.commitLog
      = exampleWorld.app.commitLog ∧
    (handleMouseUp 0 (applyMoves exampleEnv [exampleEvent]
        (handleMouseDown exampleEnv exampleEvent exampleWorld))).app.commitLog
      = exampleWorld.app.commitLog ++ [("move_element",
          (applyMoves exampleEnv [exampleEvent]
            (handleMouseDown exampleEnv exampleEvent exampleWorld)).app.elements)] ∧
    (handleMouseUp 0 (handleElementMouseDown exampleEnv exampleEvent
        (CanvasElement.signature exampleSigA) exampleWorld)).app.commitLog
      = exampleWorld.app.commitLog ++ [("move_element", exampleWorld.app.elements)] :=
  ⟨(click_commit_semantics exampleEnv exampleEvent 0 exampleWorld { left := 0, top := 0 }
      (CanvasElement.text exampleTextA) [exampleEvent]
      rfl rfl rfl rfl rfl rfl findClicked_example).1.1,
   ((click_commit_semantics exampleEnv exampleEvent 0 exampleWorld { left := 0, top := 0 }
      (CanvasElement.text exampleTextA) [exampleEvent]
      rfl rfl rfl rfl rfl rfl findClicked_example).2.1 rfl (by simp)).1,
   ((click_commit_semantics exampleEnv exampleEvent 0 exampleWorld { left := 0, top := 0 }
      (CanvasElement.text exampleTextA) [exampleEvent]
      rfl rfl rfl rfl rfl rfl findClicked_example).2.2
      (CanvasElement.signature exampleSigA)).1⟩
